import Mathlib

/-!
Verification development for the token-analyzer web application.

The definitions below are a shallow embedding of the orchestration core of
the repository: the multi-provider chat/token logic in `src/App.tsx`
(`handleSendMessage`, `handleApiServiceError`, `analyzeTextTokens`,
`commonApiCallChecks`, `resetChatStates`, the provider/model change effects)
and the two stub provider adapters `src/services/anthropicService.ts` and
`src/services/openAIService.ts`.

Modelling conventions:
  * JavaScript strings become Lean `String`; `message.toLowerCase().includes(sub)`
    becomes list-infix containment of the lowered character list.
  * JavaScript `number | undefined` usage counters become `Option Nat`;
    JS truthiness of such a value (`if (x)`) is `x` being `some n` with `n ≠ 0`.
  * React `useState` slots become fields of explicit state records; a handler
    becomes a function from the old record to the new one.  Inside one
    invocation of a handler the captured state variables are the render-time
    values (React closures do not see in-handler `set*` updates); the
    embeddings therefore take the pre-handler values as arguments.
  * Thrown JS error objects become an explicit record of their `name` and
    `message`; fallible service calls return `Except`.
-/

namespace TokenAnalyzer

/-- Character-list lowering of a string; models `s.toLowerCase()` for the
ASCII messages the classifier inspects (Lean `Char.toLower`, like the
classifier substrings, only involves ASCII letters). -/
def lowerChars (s : String) : List Char := s.data.map Char.toLower

/-- Models `hay.toLowerCase().includes(sub)` for an already lower-case
literal `sub`: containment of `sub` as a contiguous substring. -/
def ciHas (hay sub : String) : Bool := decide (sub.data <:+: lowerChars hay)

/-- Models the JS blank test `s.trim() === ""` (the string is empty or
whitespace-only): after dropping leading whitespace nothing remains. -/
def isBlank (s : String) : Bool := (s.data.dropWhile Char.isWhitespace).isEmpty

/-- A raised JS failure as the orchestrator sees it: its `name` and `message`. -/
structure ErrObj where
  name : String
  message : String
deriving DecidableEq, Repr

/-- Models the `e.message || 'Unknown error'` display fallback. -/
def displayMessage (e : ErrObj) : String :=
  if e.message == "" then "Unknown error" else e.message

/-- Message roles, from the `ChatMessage` shape used throughout `App.tsx`
(declared in the repository in `components/ChatBox.tsx`). -/
inductive Role where
  | user
  | model
  | system
deriving DecidableEq, Repr

/-- A chat message: `{ id, role, content, isStreaming?, error? }`.  The two
optional booleans are absent (falsy) at user-message creation, so they are
modelled as `Bool` defaulting to `false`. -/
structure ChatMessage where
  id : String
  role : Role
  content : String
  isStreaming : Bool
  error : Bool
deriving DecidableEq, Repr

/-- The eight counters of `AppChatTokenDetails` in `src/App.tsx`. -/
structure AppChatTokenDetails where
  lastTurnPromptTokens : Nat
  lastTurnCandidateTokens : Nat
  lastTurnTotalTokens : Nat
  lastTurnCachedInputTokens : Nat
  sessionPromptTokens : Nat
  sessionCandidateTokens : Nat
  sessionTotalTokens : Nat
  sessionCachedInputTokens : Nat
deriving DecidableEq, Repr

/-- `initialChatTokenDetails` in `src/App.tsx`: all eight counters zero. -/
def initialChatTokenDetails : AppChatTokenDetails := ⟨0, 0, 0, 0, 0, 0, 0, 0⟩

/-- The code reads an absent ledger as zeros (`prevDetails?.x || 0`); this is
that read. -/
def ledgerView (d : Option AppChatTokenDetails) : AppChatTokenDetails :=
  d.getD initialChatTokenDetails

/-- The optional usage snapshot carried by a streamed response fragment
(`usageMetadata` of a `GenerateContentResponse` chunk). -/
structure UsageMetadata where
  promptTokenCount : Option Nat
  cachedContentTokenCount : Option Nat
  candidatesTokenCount : Option Nat
deriving DecidableEq, Repr

/-- One streamed response fragment: incremental text plus an optional usage
snapshot. -/
structure Chunk where
  text : String
  usageMetadata : Option UsageMetadata
deriving DecidableEq, Repr

/-- The three mutable per-turn counters of `handleSendMessage`
(`turnPromptTokens`, `turnCandidateTokens`, `turnCachedInputTokens`). -/
structure TurnCounts where
  prompt : Nat
  candidates : Nat
  cachedInput : Nat
deriving DecidableEq, Repr

/-- The usage fold of one loop iteration in `handleSendMessage`
(src/App.tsx lines 433-444): take `promptTokenCount` and
`cachedContentTokenCount` only when truthy and the counter is still 0, and
add every truthy `candidatesTokenCount`. -/
def foldChunkUsage (acc : TurnCounts) (chunk : Chunk) : TurnCounts :=
  match chunk.usageMetadata with
  | none => acc
  | some u =>
    let acc1 := match u.promptTokenCount with
      | some p => if p != 0 && acc.prompt == 0 then { acc with prompt := p } else acc
      | none => acc
    let acc2 := match u.cachedContentTokenCount with
      | some q => if q != 0 && acc1.cachedInput == 0 then { acc1 with cachedInput := q } else acc1
      | none => acc1
    match u.candidatesTokenCount with
      | some r => if r != 0 then { acc2 with candidates := acc2.candidates + r } else acc2
      | none => acc2

/-- The whole-stream usage fold: the `for await` loop of `handleSendMessage`
starting from the zero-initialised turn counters. -/
def foldTurnUsage (chunks : List Chunk) : TurnCounts :=
  chunks.foldl foldChunkUsage ⟨0, 0, 0⟩

/-- The ledger commit at the end of a successful turn
(src/App.tsx lines 448-458): `total = prompt + candidates`, `lastTurn`
overwritten, session sums incremented (absent previous details read as 0). -/
def commitTurn (prev : Option AppChatTokenDetails) (t : TurnCounts) : AppChatTokenDetails :=
  let turnTotal := t.prompt + t.candidates
  { lastTurnPromptTokens := t.prompt
    lastTurnCandidateTokens := t.candidates
    lastTurnTotalTokens := turnTotal
    lastTurnCachedInputTokens := t.cachedInput
    sessionPromptTokens := (ledgerView prev).sessionPromptTokens + t.prompt
    sessionCandidateTokens := (ledgerView prev).sessionCandidateTokens + t.candidates
    sessionTotalTokens := (ledgerView prev).sessionTotalTokens + turnTotal
    sessionCachedInputTokens := (ledgerView prev).sessionCachedInputTokens + t.cachedInput }

/-- The prompt snapshot a fragment reports, if any. -/
def promptOf (c : Chunk) : Option Nat := c.usageMetadata.bind (·.promptTokenCount)

/-- The cached-content snapshot a fragment reports, if any. -/
def cachedOf (c : Chunk) : Option Nat := c.usageMetadata.bind (·.cachedContentTokenCount)

/-- The candidates snapshot a fragment reports, if any. -/
def candidatesOf (c : Chunk) : Option Nat := c.usageMetadata.bind (·.candidatesTokenCount)

/-- Specification-side reading: the value of the first fragment that reports a
non-zero count, 0 when none does. -/
def firstNonzeroReported : List (Option Nat) → Nat
  | [] => 0
  | some p :: rest => if p ≠ 0 then p else firstNonzeroReported rest
  | none :: rest => firstNonzeroReported rest

/-- Specification-side reading: the sum of the reported values across all
fragments that report one. -/
def sumReported (l : List (Option Nat)) : Nat := (l.filterMap id).sum

/-- The worked fragment sequence of the spec:
`[{prompt:10,cached:2,completion:3}, {completion:4}, {prompt:99,completion:2}]`. -/
def exampleChunks : List Chunk :=
  [ ⟨"", some ⟨some 10, some 2, some 3⟩⟩,
    ⟨"", some ⟨none, none, some 4⟩⟩,
    ⟨"", some ⟨some 99, none, some 2⟩⟩ ]

theorem foldChunkUsage_prompt (acc : TurnCounts) (c : Chunk) :
    (foldChunkUsage acc c).prompt =
      match promptOf c with
      | some p => if p ≠ 0 ∧ acc.prompt = 0 then p else acc.prompt
      | none => acc.prompt := by
  cases hm : c.usageMetadata with
  | none => simp [foldChunkUsage, promptOf, hm]
  | some u =>
    cases hp : u.promptTokenCount <;> cases hq : u.cachedContentTokenCount <;>
      cases hr : u.candidatesTokenCount <;>
      simp only [foldChunkUsage, promptOf, hm, hp, hq, hr, Option.bind] <;>
      repeat' split
    all_goals simp_all

theorem foldChunkUsage_cached (acc : TurnCounts) (c : Chunk) :
    (foldChunkUsage acc c).cachedInput =
      match cachedOf c with
      | some q => if q ≠ 0 ∧ acc.cachedInput = 0 then q else acc.cachedInput
      | none => acc.cachedInput := by
  cases hm : c.usageMetadata with
  | none => simp [foldChunkUsage, cachedOf, hm]
  | some u =>
    cases hp : u.promptTokenCount <;> cases hq : u.cachedContentTokenCount <;>
      cases hr : u.candidatesTokenCount <;>
      simp only [foldChunkUsage, cachedOf, hm, hp, hq, hr, Option.bind] <;>
      repeat' split
    all_goals simp_all

theorem foldChunkUsage_candidates (acc : TurnCounts) (c : Chunk) :
    (foldChunkUsage acc c).candidates =
      acc.candidates + (candidatesOf c).getD 0 := by
  cases hm : c.usageMetadata with
  | none => simp [foldChunkUsage, candidatesOf, hm]
  | some u =>
    cases hp : u.promptTokenCount <;> cases hq : u.cachedContentTokenCount <;>
      cases hr : u.candidatesTokenCount <;>
      simp only [foldChunkUsage, candidatesOf, hm, hp, hq, hr, Option.bind] <;>
      repeat' split
    all_goals simp_all

theorem foldl_usage_prompt (cs : List Chunk) : ∀ acc : TurnCounts,
    (cs.foldl foldChunkUsage acc).prompt =
      if acc.prompt = 0 then firstNonzeroReported (cs.map promptOf) else acc.prompt := by
  induction cs with
  | nil =>
    intro acc
    by_cases h : acc.prompt = 0 <;> simp [h, firstNonzeroReported]
  | cons c rest ih =>
    intro acc
    simp only [List.foldl_cons, List.map_cons, ih (foldChunkUsage acc c)]
    have hstep := foldChunkUsage_prompt acc c
    cases hp : promptOf c with
    | none =>
      rw [hp] at hstep
      simp [hstep, firstNonzeroReported]
    | some p =>
      rw [hp] at hstep
      by_cases hz : p = 0
      · subst hz
        simp at hstep
        simp [hstep, firstNonzeroReported]
      · by_cases ha : acc.prompt = 0
        · have : (foldChunkUsage acc c).prompt = p := by simp [hstep, hz, ha]
          simp [this, hz, ha, firstNonzeroReported]
        · have : (foldChunkUsage acc c).prompt = acc.prompt := by
            simp [hstep, ha]
          simp [this, ha]

theorem foldl_usage_cached (cs : List Chunk) : ∀ acc : TurnCounts,
    (cs.foldl foldChunkUsage acc).cachedInput =
      if acc.cachedInput = 0 then firstNonzeroReported (cs.map cachedOf) else acc.cachedInput := by
  induction cs with
  | nil =>
    intro acc
    by_cases h : acc.cachedInput = 0 <;> simp [h, firstNonzeroReported]
  | cons c rest ih =>
    intro acc
    simp only [List.foldl_cons, List.map_cons, ih (foldChunkUsage acc c)]
    have hstep := foldChunkUsage_cached acc c
    cases hq : cachedOf c with
    | none =>
      rw [hq] at hstep
      simp [hstep, firstNonzeroReported]
    | some q =>
      rw [hq] at hstep
      by_cases hz : q = 0
      · subst hz
        simp at hstep
        simp [hstep, firstNonzeroReported]
      · by_cases ha : acc.cachedInput = 0
        · have : (foldChunkUsage acc c).cachedInput = q := by simp [hstep, hz, ha]
          simp [this, hz, ha, firstNonzeroReported]
        · have : (foldChunkUsage acc c).cachedInput = acc.cachedInput := by
            simp [hstep, ha]
          simp [this, ha]

theorem foldl_usage_candidates (cs : List Chunk) : ∀ acc : TurnCounts,
    (cs.foldl foldChunkUsage acc).candidates =
      acc.candidates + sumReported (cs.map candidatesOf) := by
  induction cs with
  | nil => intro acc; simp [sumReported]
  | cons c rest ih =>
    intro acc
    simp only [List.foldl_cons, List.map_cons, ih (foldChunkUsage acc c),
      foldChunkUsage_candidates]
    cases hr : candidatesOf c with
    | none => simp [sumReported, hr]
    | some r => simp [sumReported, hr, Nat.add_assoc]

/-- C1.  The committed ledger turn of `handleSendMessage`: prompt and
cached-input counts come from the first fragment reporting a non-zero value
(0 if none does), the completion count is the sum over all fragments that
report one, and the total is prompt plus completion; on the worked example
the turn is prompt 10, cached 2, completion 9, total 19. -/
theorem ledger_fold_turn_commit :
    (∀ (prev : Option AppChatTokenDetails) (cs : List Chunk),
        (commitTurn prev (foldTurnUsage cs)).lastTurnPromptTokens =
            firstNonzeroReported (cs.map promptOf)
      ∧ (commitTurn prev (foldTurnUsage cs)).lastTurnCachedInputTokens =
            firstNonzeroReported (cs.map cachedOf)
      ∧ (commitTurn prev (foldTurnUsage cs)).lastTurnCandidateTokens =
            sumReported (cs.map candidatesOf)
      ∧ (commitTurn prev (foldTurnUsage cs)).lastTurnTotalTokens =
            (commitTurn prev (foldTurnUsage cs)).lastTurnPromptTokens +
              (commitTurn prev (foldTurnUsage cs)).lastTurnCandidateTokens)
    ∧ (commitTurn none (foldTurnUsage exampleChunks)).lastTurnPromptTokens = 10
    ∧ (commitTurn none (foldTurnUsage exampleChunks)).lastTurnCachedInputTokens = 2
    ∧ (commitTurn none (foldTurnUsage exampleChunks)).lastTurnCandidateTokens = 9
    ∧ (commitTurn none (foldTurnUsage exampleChunks)).lastTurnTotalTokens = 19 := by
  refine ⟨fun prev cs => ?_, by decide, by decide, by decide, by decide⟩
  have hp := foldl_usage_prompt cs ⟨0, 0, 0⟩
  have hc := foldl_usage_cached cs ⟨0, 0, 0⟩
  have hd := foldl_usage_candidates cs ⟨0, 0, 0⟩
  simp only [if_pos rfl] at hp hc
  simp only [Nat.zero_add] at hd
  exact ⟨by simp [commitTurn, foldTurnUsage, hp],
         by simp [commitTurn, foldTurnUsage, hc],
         by simp [commitTurn, foldTurnUsage, hd],
         by simp [commitTurn]⟩

/-- The two shared banner slots of the app: the persistent credential banner
(`apiKeyError`) and the dismissible generic banner (`error`). -/
structure Banners where
  apiKeyError : Option String
  genericError : Option String
deriving DecidableEq, Repr

/-- The route test of `handleApiServiceError` (src/App.tsx lines 206-214):
the failure is sent to the credential banner when its name is
`ApiKeyOrPermissionError`, or when its message is truthy (non-empty) and
case-insensitively contains one of five key phrases. -/
def handleApiServiceErrorRoute (e : ErrObj) : Bool :=
  e.name == "ApiKeyOrPermissionError" ||
    (e.message != "" &&
      (ciHas e.message "api key" || ciHas e.message "permission" ||
       ciHas e.message "quota" || ciHas e.message "authentication_error" ||
       ciHas e.message "billing_not_active"))

/-- The error classifier `handleApiServiceError` of src/App.tsx: the
credential route sets the credential banner to the raw failure message; the
generic route sets the generic banner to the wrapped operation message
(with the `Unknown error` fallback for an empty message). -/
def handleApiServiceError (b : Banners) (e : ErrObj) (operationContext : String) : Banners :=
  if handleApiServiceErrorRoute e then
    { b with apiKeyError := some e.message }
  else
    { b with genericError := some ("Failed to " ++ operationContext ++ ": " ++ displayMessage e) }

/-- Containment is monotone: a message containing the larger phrase contains
every contiguous part of it. -/
theorem ciHas_mono {hay a b : String} (hsub : b.data <:+: a.data)
    (h : ciHas hay a = true) : ciHas hay b = true := by
  unfold ciHas at h ⊢
  exact decide_eq_true (List.IsInfix.trans hsub (of_decide_eq_true h))

/-- The claimed trigger list of the credential route, minus the two phrases
the classifier does not in fact recognise on raw failures
(`api_key_missing`, `rate_limit_exceeded`). -/
def credentialSubstrings : List String :=
  ["api key", "permission", "quota", "authentication_error", "billing_not_active",
   "incorrect api key", "insufficient_quota"]

theorem route_true_of_ciHas {e : ErrObj} {sub : String}
    (hmem : sub ∈ credentialSubstrings) (hhas : ciHas e.message sub = true) :
    handleApiServiceErrorRoute e = true := by
  have hne : (e.message == "") = false := by
    by_cases hm : e.message = ""
    · rw [hm] at hhas
      fin_cases hmem <;> exact absurd hhas (by decide)
    · simp [hm]
  unfold handleApiServiceErrorRoute
  simp only [Bool.or_eq_true, Bool.and_eq_true, bne_iff_ne, ne_eq]
  refine Or.inr ⟨by simpa using hne, ?_⟩
  fin_cases hmem
  · simp [hhas]
  · simp [hhas]
  · simp [hhas]
  · simp [hhas]
  · simp [hhas]
  · simp [ciHas_mono (show ("api key").data <:+: ("incorrect api key").data by decide) hhas]
  · simp [ciHas_mono (show ("quota").data <:+: ("insufficient_quota").data by decide) hhas]

/-- C3 counterexample.  Raw failures whose message is exactly
`rate_limit_exceeded` or `api_key_missing` are routed by
`handleApiServiceError` to the generic banner, not the credential banner;
and a failure with an empty message yields the generic text
`Failed to ...: Unknown error` rather than the bare template. -/
theorem error_classifier_cx :
    (handleApiServiceError ⟨none, none⟩ ⟨"Error", "rate_limit_exceeded"⟩
        "analyze text tokens").apiKeyError = none
    ∧ (handleApiServiceError ⟨none, none⟩ ⟨"Error", "rate_limit_exceeded"⟩
        "analyze text tokens").genericError =
          some "Failed to analyze text tokens: rate_limit_exceeded"
    ∧ (handleApiServiceError ⟨none, none⟩ ⟨"Error", "api_key_missing"⟩
        "analyze text tokens").apiKeyError = none
    ∧ (handleApiServiceError ⟨none, none⟩ ⟨"Error", ""⟩
        "analyze text tokens").genericError =
          some "Failed to analyze text tokens: Unknown error" := by
  refine ⟨?_, ?_, ?_, ?_⟩ <;> decide

/-- C3 (amended).  A failure whose kind is `ApiKeyOrPermissionError`, or whose
message case-insensitively contains one of `api key`, `permission`, `quota`,
`authentication_error`, `billing_not_active`, `incorrect api key`,
`insufficient_quota`, is routed to the persistent credential banner (set to
the failure message), taking priority over the generic route; a failure
matching none of these is routed to the generic banner reading
`Failed to (operationContext): (message)`, with `Unknown error` in place of
an empty message. -/
theorem error_classifier_routes (b : Banners) (e : ErrObj) (ctx : String) :
    ((e.name = "ApiKeyOrPermissionError" ∨
        ∃ sub ∈ credentialSubstrings, ciHas e.message sub = true) →
        (handleApiServiceError b e ctx).apiKeyError = some e.message
      ∧ (handleApiServiceError b e ctx).genericError = b.genericError)
    ∧ ((e.name ≠ "ApiKeyOrPermissionError" ∧
        ∀ sub ∈ credentialSubstrings, ciHas e.message sub = false) →
        (handleApiServiceError b e ctx).genericError =
            some ("Failed to " ++ ctx ++ ": " ++ displayMessage e)
      ∧ (handleApiServiceError b e ctx).apiKeyError = b.apiKeyError) := by
  constructor
  · rintro (hname | ⟨sub, hmem, hhas⟩)
    · have hroute : handleApiServiceErrorRoute e = true := by
        unfold handleApiServiceErrorRoute
        simp [hname]
      simp [handleApiServiceError, hroute]
    · have hroute := route_true_of_ciHas hmem hhas
      simp [handleApiServiceError, hroute]
  · rintro ⟨hname, hnone⟩
    have hroute : handleApiServiceErrorRoute e = false := by
      have h1 := hnone "api key" (by simp [credentialSubstrings])
      have h2 := hnone "permission" (by simp [credentialSubstrings])
      have h3 := hnone "quota" (by simp [credentialSubstrings])
      have h4 := hnone "authentication_error" (by simp [credentialSubstrings])
      have h5 := hnone "billing_not_active" (by simp [credentialSubstrings])
      unfold handleApiServiceErrorRoute
      simp [hname, h1, h2, h3, h4, h5]
    simp [handleApiServiceError, hroute]

/-- C3 witness: a quota message with unrelated text routes to the credential
banner; an unrelated message routes to the generic banner with the wrapped
text. -/
theorem error_classifier_routes_witness :
    ((handleApiServiceError ⟨none, none⟩ ⟨"Error", "Quota exceeded for project 1234"⟩
        "analyze text tokens").apiKeyError = some "Quota exceeded for project 1234")
    ∧ ((handleApiServiceError ⟨none, none⟩ ⟨"Error", "network unreachable"⟩
        "analyze text tokens").genericError =
          some "Failed to analyze text tokens: network unreachable") := by
  constructor
  · exact ((error_classifier_routes ⟨none, none⟩ ⟨"Error", "Quota exceeded for project 1234"⟩
      "analyze text tokens").1 (Or.inr ⟨"quota", by simp [credentialSubstrings], by decide⟩)).1
  · exact ((error_classifier_routes ⟨none, none⟩ ⟨"Error", "network unreachable"⟩
      "analyze text tokens").2 ⟨by decide, by decide⟩).1

/-- The three selectable providers (`LLM_PROVIDERS` in src/App.tsx). -/
inductive LLMProvider where
  | google
  | anthropic
  | openai
deriving DecidableEq, Repr

/-- Display names from `LLM_PROVIDERS`. -/
def providerDisplayName : LLMProvider → String
  | .google => "Google Gemini"
  | .anthropic => "Anthropic Claude"
  | .openai => "OpenAI GPT"

/-- `AVAILABLE_MODELS_BY_PROVIDER` in src/App.tsx. -/
def availableModels : LLMProvider → List String
  | .google => ["gemini-2.5-flash-preview-04-17"]
  | .anthropic => ["claude-3-opus-20240229", "claude-3-sonnet-20240229", "claude-3-haiku-20240307"]
  | .openai => ["gpt-4-turbo", "gpt-4o", "gpt-3.5-turbo"]

/-- One part of a structured Gemini payload: inline binary data with a mime
type, or plain text. -/
inductive GeminiPart where
  | inlineData (mimeType : String) (data : String)
  | textPart (t : String)
deriving DecidableEq, Repr

/-- What `handleSendMessage` hands to `sendMessageInChat`: a raw string or a
structured `parts` payload. -/
inductive MessageToSend where
  | str (s : String)
  | parts (ps : List GeminiPart)
deriving DecidableEq, Repr

/-- `countTokensForText` of src/services/anthropicService.ts: validate the
key (blank key raises `ApiKeyOrPermissionError`), require a non-empty model
name, then return the character-count / 4 heuristic. -/
def anthropicCountTokensForText (apiKey modelName text : String) : Except ErrObj Nat :=
  if isBlank apiKey then
    .error ⟨"ApiKeyOrPermissionError", "Anthropic API Key is required and was not provided."⟩
  else if modelName == "" then
    .error ⟨"Error", "Model name is required."⟩
  else
    .ok (text.length / 4)

/-- `countTokensForPdf` of src/services/anthropicService.ts: same validation,
plus a non-empty payload, then the payload-length / 200 heuristic. -/
def anthropicCountTokensForPdf (apiKey modelName pdfBase64Data : String) : Except ErrObj Nat :=
  if isBlank apiKey then
    .error ⟨"ApiKeyOrPermissionError", "Anthropic API Key is required and was not provided."⟩
  else if modelName == "" then
    .error ⟨"Error", "Model name is required."⟩
  else if pdfBase64Data == "" then
    .error ⟨"Error", "PDF data is required."⟩
  else
    .ok (pdfBase64Data.length / 200)

/-- `createChatSession` of src/services/anthropicService.ts: validates, then
always raises `NotImplementedError`. -/
def anthropicCreateChatSession (apiKey modelName : String) : Except ErrObj Unit :=
  if isBlank apiKey then
    .error ⟨"ApiKeyOrPermissionError", "Anthropic API Key is required and was not provided."⟩
  else if modelName == "" then
    .error ⟨"Error", "Model name is required."⟩
  else
    .error ⟨"NotImplementedError",
      "Chat session creation for Anthropic Claude models is not yet implemented."⟩

/-- `sendMessageInChat` of src/services/anthropicService.ts: always raises
`NotImplementedError`. -/
def anthropicSendMessageInChat (_session : Unit) (_messageContent : MessageToSend) :
    Except ErrObj (List Chunk) :=
  .error ⟨"NotImplementedError",
    "Sending chat messages for Anthropic Claude models is not yet implemented."⟩

/-- `countTokensForText` of src/services/openAIService.ts. -/
def openAICountTokensForText (apiKey modelName text : String) : Except ErrObj Nat :=
  if isBlank apiKey then
    .error ⟨"ApiKeyOrPermissionError", "OpenAI API Key is required and was not provided."⟩
  else if modelName == "" then
    .error ⟨"Error", "Model name is required."⟩
  else
    .ok (text.length / 4)

/-- `countTokensForPdf` of src/services/openAIService.ts. -/
def openAICountTokensForPdf (apiKey modelName pdfBase64Data : String) : Except ErrObj Nat :=
  if isBlank apiKey then
    .error ⟨"ApiKeyOrPermissionError", "OpenAI API Key is required and was not provided."⟩
  else if modelName == "" then
    .error ⟨"Error", "Model name is required."⟩
  else if pdfBase64Data == "" then
    .error ⟨"Error", "PDF data is required."⟩
  else
    .ok (pdfBase64Data.length / 200)

/-- `createChatSession` of src/services/openAIService.ts. -/
def openAICreateChatSession (apiKey modelName : String) : Except ErrObj Unit :=
  if isBlank apiKey then
    .error ⟨"ApiKeyOrPermissionError", "OpenAI API Key is required and was not provided."⟩
  else if modelName == "" then
    .error ⟨"Error", "Model name is required."⟩
  else
    .error ⟨"NotImplementedError",
      "Chat session creation for OpenAI GPT models is not yet implemented."⟩

/-- `sendMessageInChat` of src/services/openAIService.ts. -/
def openAISendMessageInChat (_session : Unit) (_messageContent : MessageToSend) :
    Except ErrObj (List Chunk) :=
  .error ⟨"NotImplementedError",
    "Sending chat messages for OpenAI GPT models is not yet implemented."⟩

/-- C9 counterexample.  With a valid key and model but an empty base64
payload, both stub `countTokensForPdf` functions raise a validation failure
instead of returning the heuristic value `floor(0 / 200) = 0`. -/
theorem stub_pdf_empty_payload_cx :
    anthropicCountTokensForPdf "k" "m" "" = .error ⟨"Error", "PDF data is required."⟩
    ∧ openAICountTokensForPdf "k" "m" "" = .error ⟨"Error", "PDF data is required."⟩
    ∧ anthropicCountTokensForPdf "k" "m" "" ≠ .ok 0
    ∧ openAICountTokensForPdf "k" "m" "" ≠ .ok 0 := by
  have h1 : anthropicCountTokensForPdf "k" "m" "" = .error ⟨"Error", "PDF data is required."⟩ := rfl
  have h2 : openAICountTokensForPdf "k" "m" "" = .error ⟨"Error", "PDF data is required."⟩ := rfl
  refine ⟨h1, h2, ?_, ?_⟩
  · rw [h1]; exact fun h => Except.noConfusion h
  · rw [h2]; exact fun h => Except.noConfusion h

/-- C9 (amended).  For every non-blank credential and non-blank model, both
stub providers compute `floor(length(text) / 4)` for text token counting,
compute `floor(length(base64Payload) / 200)` for PDF token counting whenever
the payload is non-empty (an empty payload raises a validation failure
instead), and both chat operations deterministically raise an identifiable
`NotImplementedError` — they never silently succeed. -/
theorem stub_providers_behaviour (apiKey modelName text pdfData : String)
    (hk : isBlank apiKey = false) (hm : isBlank modelName = false) :
    anthropicCountTokensForText apiKey modelName text = .ok (text.length / 4)
    ∧ openAICountTokensForText apiKey modelName text = .ok (text.length / 4)
    ∧ (pdfData ≠ "" →
        anthropicCountTokensForPdf apiKey modelName pdfData = .ok (pdfData.length / 200)
        ∧ openAICountTokensForPdf apiKey modelName pdfData = .ok (pdfData.length / 200))
    ∧ anthropicCreateChatSession apiKey modelName = .error ⟨"NotImplementedError",
        "Chat session creation for Anthropic Claude models is not yet implemented."⟩
    ∧ openAICreateChatSession apiKey modelName = .error ⟨"NotImplementedError",
        "Chat session creation for OpenAI GPT models is not yet implemented."⟩
    ∧ (∀ s mc, anthropicSendMessageInChat s mc = .error ⟨"NotImplementedError",
        "Sending chat messages for Anthropic Claude models is not yet implemented."⟩)
    ∧ (∀ s mc, openAISendMessageInChat s mc = .error ⟨"NotImplementedError",
        "Sending chat messages for OpenAI GPT models is not yet implemented."⟩) := by
  have hm0 : (modelName == "") = false := by
    cases h : modelName == "" with
    | false => rfl
    | true =>
      rw [eq_of_beq h] at hm
      exact absurd hm (by decide)
  refine ⟨?_, ?_, fun hp => ⟨?_, ?_⟩, ?_, ?_, fun s mc => rfl, fun s mc => rfl⟩
  · simp [anthropicCountTokensForText, hk, hm0]
  · simp [openAICountTokensForText, hk, hm0]
  · simp [anthropicCountTokensForPdf, hk, hm0, hp]
  · simp [openAICountTokensForPdf, hk, hm0, hp]
  · simp [anthropicCreateChatSession, hk, hm0]
  · simp [openAICreateChatSession, hk, hm0]

/-- C9 witness: the amended statement evaluated at a concrete key, model,
text and payload. -/
theorem stub_providers_behaviour_witness :
    anthropicCountTokensForText "sk-key" "claude-3-opus-20240229" "abcdefgh" = .ok 2
    ∧ anthropicCountTokensForPdf "sk-key" "claude-3-opus-20240229" "JVBERi" = .ok 0
    ∧ anthropicCreateChatSession "sk-key" "claude-3-opus-20240229" = .error ⟨"NotImplementedError",
        "Chat session creation for Anthropic Claude models is not yet implemented."⟩ := by
  have h := stub_providers_behaviour "sk-key" "claude-3-opus-20240229" "abcdefgh" "JVBERi"
    (by decide) (by decide)
  exact ⟨h.1, (h.2.2.1 (by decide)).1, h.2.2.2.1⟩

/-- The credential message set by `commonApiCallChecks` (src/App.tsx
lines 194-201); the provider lookup always succeeds for the three listed
providers. -/
def apiKeyRequiredMsg (p : LLMProvider) : String :=
  "API Key for " ++ providerDisplayName p ++ " is required. Please enter it above to proceed."

/-- The observable outcome of one `analyzeTextTokens` invocation: the two
banners, the displayed count, whether any provider `countTokensForText` was
reached, and the loading flag (cleared in the `finally`). -/
structure AnalyzeTextResult where
  apiKeyError : Option String
  genericError : Option String
  textTokenCount : Option Nat
  countInvoked : Bool
  isLoadingTextCount : Bool
deriving DecidableEq, Repr

/-- `analyzeTextTokens` of src/App.tsx (lines 221-257): clear the banners and
count, run `commonApiCallChecks` (blank key sets the credential banner and
stops), require non-blank story text, then dispatch on the provider; a
thrown failure goes through `handleApiServiceError`.  The Google network
call is abstracted as the `googleCount` oracle; the stub providers are the
embedded service functions. -/
def analyzeTextTokens (p : LLMProvider) (apiKey selectedModel storyText : String)
    (googleCount : Except ErrObj Nat) : AnalyzeTextResult :=
  if isBlank apiKey then
    { apiKeyError := some (apiKeyRequiredMsg p), genericError := none,
      textTokenCount := none, countInvoked := false, isLoadingTextCount := false }
  else if isBlank storyText then
    { apiKeyError := none, genericError := some "Please enter some story text to analyze.",
      textTokenCount := none, countInvoked := false, isLoadingTextCount := false }
  else
    match (match p with
      | .google => googleCount
      | .anthropic => anthropicCountTokensForText apiKey selectedModel storyText
      | .openai => openAICountTokensForText apiKey selectedModel storyText) with
    | .ok n =>
      { apiKeyError := none, genericError := none, textTokenCount := some n,
        countInvoked := true, isLoadingTextCount := false }
    | .error e =>
      let b := handleApiServiceError ⟨none, none⟩ e "analyze text tokens"
      { apiKeyError := b.apiKeyError, genericError := b.genericError, textTokenCount := none,
        countInvoked := true, isLoadingTextCount := false }

/-- C5.  With a blank (empty or whitespace-only) credential, requesting text
token analysis reaches no provider `countTokensForText` and surfaces the
credential-required message in the persistent credential banner. -/
theorem blank_credential_blocks_text_analysis (p : LLMProvider)
    (apiKey selectedModel storyText : String) (googleCount : Except ErrObj Nat)
    (hb : isBlank apiKey = true) :
    (analyzeTextTokens p apiKey selectedModel storyText googleCount).countInvoked = false
    ∧ (analyzeTextTokens p apiKey selectedModel storyText googleCount).apiKeyError =
        some (apiKeyRequiredMsg p) := by
  simp [analyzeTextTokens, hb]

/-- C5 witness: a whitespace-only key with the Anthropic provider. -/
theorem blank_credential_blocks_text_analysis_witness :
    isBlank "   " = true
    ∧ (analyzeTextTokens .anthropic "   " "claude-3-opus-20240229" "Once upon a time"
        (.ok 42)).countInvoked = false
    ∧ (analyzeTextTokens .anthropic "   " "claude-3-opus-20240229" "Once upon a time"
        (.ok 42)).apiKeyError = some (apiKeyRequiredMsg .anthropic) := by
  have h := blank_credential_blocks_text_analysis .anthropic "   " "claude-3-opus-20240229"
    "Once upon a time" (.ok 42) (by decide)
  exact ⟨by decide, h.1, h.2⟩

/-- The first-turn test of `handleSendMessage` (src/App.tsx lines 378-379).
`priorMessages` is the render-time message list captured by the handler
closure: it does NOT contain the user message appended inside the same
invocation, because React state setters do not update captured variables.
`staleSession` is the captured session slot; `currentSession` is the local
variable after session acquisition. -/
def isFirstMeaningfulMessageInSession (priorMessages : List ChatMessage)
    (staleSession : Option Nat) (currentSession : Nat) : Bool :=
  decide ((priorMessages.filter (fun m => m.role == Role.user)).length ≤ 1) &&
    (staleSession.isNone || staleSession == some currentSession)

/-- The first-turn test as `handleSendMessage` actually invokes it: the local
`currentSession` starts as the captured session and is replaced by a freshly
created handle only when no session existed (src/App.tsx lines 360-375). -/
def turnIsFirst (priorMessages : List ChatMessage) (staleSession : Option Nat)
    (freshSession : Nat) : Bool :=
  isFirstMeaningfulMessageInSession priorMessages staleSession (staleSession.getD freshSession)

/-- Payload construction for the text context (src/App.tsx lines 390-392):
on a first meaningful turn the story text is wrapped in a delimiter block
before the literal query; otherwise the raw message is sent. -/
def buildTextMessage (isFirst : Bool) (storyText message : String) : MessageToSend :=
  if isFirst then
    .str ("Contextual Text:\n\"\"\"\n" ++ storyText ++ "\n\"\"\"\n\nUser Query: " ++ message)
  else
    .str message

/-- Payload construction for the PDF context (src/App.tsx lines 401-410):
on a first meaningful turn a structured payload with the inline PDF part
first and a text part with the literal query; otherwise the raw message. -/
def buildPdfMessage (isFirst : Bool) (pdfData message : String) : MessageToSend :=
  if isFirst then
    .parts [ .inlineData "application/pdf" pdfData,
      .textPart ("User Query about the PDF: " ++ message) ]
  else
    .str message

/-- A PDF-context session after one completed turn: the captured message
list holds one user message and one model reply, and a session exists. -/
def secondTurnPriorMessages : List ChatMessage :=
  [⟨"1", .user, "What is this PDF about?", false, false⟩,
   ⟨"1-model", .model, "It is a report.", false, false⟩]

/-- C2 counterexample.  On the second user turn of a PDF session (exactly one
prior user message captured, session present) the first-turn test is still
true, so the payload is the structured PDF payload again — not the raw query
string the claim requires. -/
theorem second_turn_payload_cx :
    turnIsFirst secondTurnPriorMessages (some 7) 9 = true
    ∧ buildPdfMessage (turnIsFirst secondTurnPriorMessages (some 7) 9) "JVBERi" "Summarise it" =
        .parts [.inlineData "application/pdf" "JVBERi",
          .textPart "User Query about the PDF: Summarise it"]
    ∧ buildPdfMessage (turnIsFirst secondTurnPriorMessages (some 7) 9) "JVBERi" "Summarise it" ≠
        .str "Summarise it" := by
  have h1 : buildPdfMessage (turnIsFirst secondTurnPriorMessages (some 7) 9) "JVBERi"
      "Summarise it" =
      .parts [.inlineData "application/pdf" "JVBERi",
        .textPart "User Query about the PDF: Summarise it"] := rfl
  refine ⟨rfl, h1, ?_⟩
  rw [h1]
  exact fun h => MessageToSend.noConfusion h

/-- C2 (amended).  Payload construction depends only on the number of user
messages captured before the turn: with at most one prior user message (the
first and the second user turn) the PDF context sends the structured payload
whose first part is the inline PDF and whose second part is text containing
the literal query, and the text context wraps the story in a delimiter block
before the literal query; with two or more prior user messages the raw
message alone is sent in both contexts. -/
theorem payload_construction_by_turn (priorMessages : List ChatMessage)
    (staleSession : Option Nat) (freshSession : Nat) (storyText pdfData message : String) :
    (turnIsFirst priorMessages staleSession freshSession =
        decide ((priorMessages.filter (fun m => m.role == Role.user)).length ≤ 1))
    ∧ ((priorMessages.filter (fun m => m.role == Role.user)).length ≤ 1 →
        buildPdfMessage (turnIsFirst priorMessages staleSession freshSession) pdfData message =
          .parts [.inlineData "application/pdf" pdfData,
            .textPart ("User Query about the PDF: " ++ message)]
        ∧ buildTextMessage (turnIsFirst priorMessages staleSession freshSession)
            storyText message =
          .str ("Contextual Text:\n\"\"\"\n" ++ storyText ++ "\n\"\"\"\n\nUser Query: " ++ message))
    ∧ (2 ≤ (priorMessages.filter (fun m => m.role == Role.user)).length →
        buildPdfMessage (turnIsFirst priorMessages staleSession freshSession) pdfData message =
          .str message
        ∧ buildTextMessage (turnIsFirst priorMessages staleSession freshSession)
            storyText message = .str message) := by
  have hsess : turnIsFirst priorMessages staleSession freshSession =
      decide ((priorMessages.filter (fun m => m.role == Role.user)).length ≤ 1) := by
    cases staleSession with
    | none => simp [turnIsFirst, isFirstMeaningfulMessageInSession]
    | some s => simp [turnIsFirst, isFirstMeaningfulMessageInSession]
  refine ⟨hsess, fun hle => ?_, fun hge => ?_⟩
  · rw [hsess] at *
    simp [buildPdfMessage, buildTextMessage, hle]
  · have hnot : ¬ (priorMessages.filter (fun m => m.role == Role.user)).length ≤ 1 := by
      omega
    rw [hsess] at *
    simp [buildPdfMessage, buildTextMessage, hnot]

/-- C2 witness: the first turn of a fresh PDF session takes the structured
payload; the third turn (two prior user messages) sends the raw string. -/
theorem payload_construction_by_turn_witness :
    buildPdfMessage (turnIsFirst [] none 5) "JVBERi" "Hi" =
      .parts [.inlineData "application/pdf" "JVBERi", .textPart "User Query about the PDF: Hi"]
    ∧ buildTextMessage
        (turnIsFirst (secondTurnPriorMessages ++ [⟨"2", .user, "More?", false, false⟩,
          ⟨"2-model", .model, "Sure.", false, false⟩]) (some 3) 5) "story" "Hi" = .str "Hi" := by
  refine ⟨((payload_construction_by_turn [] none 5 "s" "JVBERi" "Hi").2.1 (by decide)).1, ?_⟩
  exact ((payload_construction_by_turn (secondTurnPriorMessages ++
    [⟨"2", .user, "More?", false, false⟩, ⟨"2-model", .model, "Sure.", false, false⟩])
    (some 3) 5 "story" "JVBERi" "Hi").2.2 (by decide)).2

/-- The observable slice of a send attempt that fails the PDF-data guard:
the context message list, the context error slot, the loading flag, and
whether `sendMessageInChat` was reached. -/
structure PdfPrecheckResult where
  messages : List ChatMessage
  errorSlot : Option String
  isLoading : Bool
  sendInvoked : Bool
deriving DecidableEq, Repr

/-- The start of a PDF-context `handleSendMessage` turn up to the PDF-data
guard (src/App.tsx lines 349-351 and 393-400): the user message is appended
first; if the cached base64 payload is absent the error slot is set, loading
is cleared, the just-appended user message is filtered back out and the turn
returns before `sendMessageInChat`. -/
def pdfDataPrecheck (priorMessages : List ChatMessage) (userMessageId message : String)
    (pdfBase64Data : Option String) : PdfPrecheckResult :=
  let appended := priorMessages ++ [⟨userMessageId, .user, message, false, false⟩]
  match pdfBase64Data with
  | none =>
    { messages := appended.filter (fun m => m.id != userMessageId),
      errorSlot := some "PDF data is not available for chat. Please re-upload if necessary.",
      isLoading := false, sendInvoked := false }
  | some _ =>
    { messages := appended, errorSlot := none, isLoading := true, sendInvoked := true }

/-- C8.  In the PDF context, a send with no cached base64 payload fails with
the validation message before `sendMessageInChat` is reached, and rolling
back the freshly appended user message leaves the message sequence exactly
as it was before the send. -/
theorem pdf_missing_data_rolls_back (priorMessages : List ChatMessage)
    (userMessageId message : String)
    (hfresh : ∀ m ∈ priorMessages, m.id ≠ userMessageId) :
    (pdfDataPrecheck priorMessages userMessageId message none).messages = priorMessages
    ∧ (pdfDataPrecheck priorMessages userMessageId message none).errorSlot =
        some "PDF data is not available for chat. Please re-upload if necessary."
    ∧ (pdfDataPrecheck priorMessages userMessageId message none).sendInvoked = false
    ∧ (pdfDataPrecheck priorMessages userMessageId message none).isLoading = false := by
  refine ⟨?_, rfl, rfl, rfl⟩
  simp only [pdfDataPrecheck, List.filter_append]
  have hkeep : priorMessages.filter (fun m => m.id != userMessageId) = priorMessages := by
    rw [List.filter_eq_self]
    intro m hemem
    simpa using hfresh m hemem
  simp [hkeep]

/-- C8 witness: a one-message history and a fresh user-message id. -/
theorem pdf_missing_data_rolls_back_witness :
    (pdfDataPrecheck [⟨"10", .user, "earlier", false, false⟩] "11" "what now" none).messages =
      [⟨"10", .user, "earlier", false, false⟩]
    ∧ (pdfDataPrecheck [⟨"10", .user, "earlier", false, false⟩] "11" "what now" none).sendInvoked =
        false := by
  have h := pdf_missing_data_rolls_back [⟨"10", .user, "earlier", false, false⟩] "11" "what now"
    (by decide)
  exact ⟨h.1, h.2.2.1⟩

/-- The slice of app state one google-path chat turn mutates for its
context: the context message list and error slot, the two shared banners,
and the context token ledger. -/
structure ChatTurnState where
  messages : List ChatMessage
  errorSlot : Option String
  apiKeyError : Option String
  genericError : Option String
  tokenDetails : Option AppChatTokenDetails
deriving DecidableEq, Repr

/-- The per-message transform of the `AbortError` catch branch
(src/App.tsx line 463): the message whose id is the model placeholder id
(or the user message id when no placeholder was created) is marked
non-streaming with a cancelled suffix — but only if it is streaming. -/
def abortCatchMark (midOpt : Option String) (userMessageId : String)
    (m : ChatMessage) : ChatMessage :=
  if m.id == midOpt.getD userMessageId && m.isStreaming then
    { m with isStreaming := false, content := m.content ++ " [cancelled]" }
  else m

/-- The `AbortError` catch branch: it only rewrites the message list; no
banner and no error slot is touched. -/
def abortCatchHandler (s : ChatTurnState) (midOpt : Option String)
    (userMessageId : String) : ChatTurnState :=
  { s with messages := s.messages.map (abortCatchMark midOpt userMessageId) }

/-- The per-message transform of the in-loop cancellation branch
(src/App.tsx line 422): the placeholder is marked unconditionally. -/
def inLoopCancelMark (modelMessageId : String) (m : ChatMessage) : ChatMessage :=
  if m.id == modelMessageId then
    { m with isStreaming := false, content := m.content ++ " [cancelled]" }
  else m

/-- The in-loop cancellation branch (src/App.tsx lines 421-424). -/
def inLoopCancel (s : ChatTurnState) (modelMessageId : String) : ChatTurnState :=
  { s with messages := s.messages.map (inLoopCancelMark modelMessageId) }

/-- The code after the streaming loop (src/App.tsx lines 446-458), which
also runs when the loop exited via the cancellation `break`: mark the
placeholder non-streaming and commit the (possibly partial) ledger turn. -/
def postLoopFinish (s : ChatTurnState) (modelMessageId : String)
    (t : TurnCounts) : ChatTurnState :=
  { s with
    messages := s.messages.map (fun m =>
      if m.id == modelMessageId then { m with isStreaming := false } else m),
    tokenDetails := some (commitTurn s.tokenDetails t) }

/-- The whole path taken when cancellation fires between streamed fragments:
the in-loop marking followed by the post-loop code, with `t` the partial
usage counts folded before the abort was observed. -/
def cancelExitPath (s : ChatTurnState) (modelMessageId : String)
    (t : TurnCounts) : ChatTurnState :=
  postLoopFinish (inLoopCancel s modelMessageId) modelMessageId t

/-- A turn state just before an abort: one user message, no placeholder yet,
and a ledger from an earlier turn. -/
def preAbortState : ChatTurnState :=
  { messages := [⟨"1", .user, "hi", false, false⟩], errorSlot := none,
    apiKeyError := none, genericError := none,
    tokenDetails := some ⟨5, 3, 8, 0, 5, 3, 8, 0⟩ }

/-- C4 counterexample.  When an `AbortError` arrives before any placeholder
was created, the user message is NOT marked (it is never streaming, so no
cancelled suffix is appended); and when cancellation fires between
fragments, the ledger turn is still committed, visibly zeroing the previous
last-turn counters — an extra visible effect beyond the message marking. -/
theorem abort_user_message_cx :
    (abortCatchHandler preAbortState none "1").messages =
      [⟨"1", .user, "hi", false, false⟩]
    ∧ (abortCatchHandler preAbortState none "1").apiKeyError = none
    ∧ (abortCatchHandler preAbortState none "1").genericError = none
    ∧ (cancelExitPath
        { preAbortState with messages := [⟨"1", .user, "hi", false, false⟩,
            ⟨"1-model", .model, "part", true, false⟩] }
        "1-model" ⟨0, 0, 0⟩).tokenDetails = some ⟨0, 0, 0, 0, 5, 3, 8, 0⟩
    ∧ (some (⟨0, 0, 0, 0, 5, 3, 8, 0⟩ : AppChatTokenDetails) ≠ preAbortState.tokenDetails) := by
  refine ⟨rfl, rfl, rfl, rfl, ?_⟩
  decide

/-- C4 (amended).  An aborted turn sets neither banner on any abort path;
a still-streaming model placeholder is marked non-streaming with a
cancelled suffix both by the in-loop cancellation and by the `AbortError`
catch; when no placeholder was created the user message is left unchanged
(it is never streaming); and the between-fragments cancellation path still
commits the partial ledger turn. -/
theorem abort_handling (s : ChatTurnState) (mid userMessageId : String)
    (midOpt : Option String) (t : TurnCounts) :
    ((abortCatchHandler s midOpt userMessageId).apiKeyError = s.apiKeyError
      ∧ (abortCatchHandler s midOpt userMessageId).genericError = s.genericError
      ∧ (abortCatchHandler s midOpt userMessageId).errorSlot = s.errorSlot
      ∧ (cancelExitPath s mid t).apiKeyError = s.apiKeyError
      ∧ (cancelExitPath s mid t).genericError = s.genericError
      ∧ (cancelExitPath s mid t).errorSlot = s.errorSlot)
    ∧ (∀ m ∈ s.messages, m.id = mid → m.isStreaming = true →
        ({ m with isStreaming := false, content := m.content ++ " [cancelled]" } : ChatMessage)
          ∈ (abortCatchHandler s (some mid) userMessageId).messages)
    ∧ ((∀ m ∈ s.messages, m.isStreaming = false) →
        (abortCatchHandler s none userMessageId).messages = s.messages)
    ∧ (∀ m ∈ s.messages, m.id = mid →
        ({ m with isStreaming := false, content := m.content ++ " [cancelled]" } : ChatMessage)
          ∈ (cancelExitPath s mid t).messages)
    ∧ (cancelExitPath s mid t).tokenDetails = some (commitTurn s.tokenDetails t) := by
  refine ⟨⟨rfl, rfl, rfl, rfl, rfl, rfl⟩, ?_, ?_, ?_, rfl⟩
  · intro m hm hid hstream
    have hmark : abortCatchMark (some mid) userMessageId m =
        { m with isStreaming := false, content := m.content ++ " [cancelled]" } := by
      simp [abortCatchMark, hid, hstream]
    have := List.mem_map_of_mem (abortCatchMark (some mid) userMessageId) hm
    rwa [hmark] at this
  · intro hall
    have : s.messages.map (abortCatchMark none userMessageId) = s.messages := by
      refine (List.map_congr_left ?_).trans (List.map_id s.messages)
      intro m hm
      simp [abortCatchMark, hall m hm]
    simpa [abortCatchHandler] using this
  · intro m hm hid
    have hmark : inLoopCancelMark mid m =
        { m with isStreaming := false, content := m.content ++ " [cancelled]" } := by
      simp [inLoopCancelMark, hid]
    have h2 := List.mem_map_of_mem (inLoopCancelMark mid) hm
    rw [hmark] at h2
    have h3 := List.mem_map_of_mem
      (fun m : ChatMessage => if m.id == mid then { m with isStreaming := false } else m) h2
    simpa [cancelExitPath, postLoopFinish, inLoopCancel, hid] using h3

/-- C4 witness: a state with a streaming placeholder; the catch marks it,
and with only non-streaming messages the no-placeholder catch is a no-op. -/
theorem abort_handling_witness :
    ((⟨"1-model", .model, "part", true, false⟩ : ChatMessage).isStreaming = true
      ∧ ({ (⟨"1-model", .model, "part", true, false⟩ : ChatMessage) with
            isStreaming := false,
            content := ("part" : String) ++ " [cancelled]" } : ChatMessage)
          ∈ (abortCatchHandler
              { preAbortState with messages := [⟨"1", .user, "hi", false, false⟩,
                  ⟨"1-model", .model, "part", true, false⟩] }
              (some "1-model") "1").messages)
    ∧ (abortCatchHandler preAbortState none "1").messages = preAbortState.messages := by
  refine ⟨⟨rfl, ?_⟩, ?_⟩
  · exact (abort_handling
      { preAbortState with messages := [⟨"1", .user, "hi", false, false⟩,
          ⟨"1-model", .model, "part", true, false⟩] }
      "1-model" "1" none ⟨0, 0, 0⟩).2.1
      ⟨"1-model", .model, "part", true, false⟩ (by decide) rfl rfl
  · exact (abort_handling preAbortState "x" "1" none ⟨0, 0, 0⟩).2.2.1 (by decide)

/-- The credential-route test of the non-abort chat catch
(src/App.tsx lines 467 and 473): the failure name, or three key phrases in
the displayed message. -/
def chatCredRoute (e : ErrObj) : Bool :=
  e.name == "ApiKeyOrPermissionError" || ciHas (displayMessage e) "api key" ||
    ciHas (displayMessage e) "permission" || ciHas (displayMessage e) "quota"

/-- The removal filter of the credential chat-failure branch
(src/App.tsx line 469): keep a message only if its id is neither the user
message id nor the placeholder id (a null placeholder id matches nothing). -/
def keepAfterCredentialRemoval (userMessageId : String) (midOpt : Option String)
    (m : ChatMessage) : Bool :=
  match midOpt with
  | none => m.id != userMessageId
  | some mid => m.id != userMessageId && m.id != mid

/-- The per-message transform of the generic chat-failure branch
(src/App.tsx line 474): a streaming target message gets the error flag and
an `[Error]` suffix; the user message gets the error flag alone when no
placeholder was created; everything else is untouched. -/
def genericFailureMark (midOpt : Option String) (userMessageId : String)
    (m : ChatMessage) : ChatMessage :=
  if m.id == midOpt.getD userMessageId && m.isStreaming then
    { m with isStreaming := false, error := true, content := m.content ++ " [Error]" }
  else if m.id == userMessageId && midOpt.isNone then
    { m with error := true }
  else m

/-- The non-abort catch branch of a chat turn (src/App.tsx lines 464-476):
the credential route runs `handleApiServiceError` and removes the user
message and placeholder; the generic route fills the context error slot and
marks the placeholder (or flags the user message when no placeholder
exists). -/
def chatCatchNonAbort (s : ChatTurnState) (e : ErrObj) (contextType : String)
    (midOpt : Option String) (userMessageId : String) : ChatTurnState :=
  if chatCredRoute e then
    let b := handleApiServiceError ⟨s.apiKeyError, s.genericError⟩ e
      ("send " ++ contextType ++ " chat message")
    { s with
      apiKeyError := b.apiKeyError,
      genericError := b.genericError,
      messages := s.messages.filter (keepAfterCredentialRemoval userMessageId midOpt) }
  else
    { s with
      errorSlot := some ("Failed to get chat response: " ++ displayMessage e),
      messages := s.messages.map (genericFailureMark midOpt userMessageId) }

theorem route_of_chatCredRoute {e : ErrObj} (h : chatCredRoute e = true) :
    handleApiServiceErrorRoute e = true := by
  unfold chatCredRoute at h
  simp only [Bool.or_eq_true] at h
  by_cases hm : e.message = ""
  · have hd : displayMessage e = "Unknown error" := by simp [displayMessage, hm]
    rcases h with ((h | h) | h) | h
    · unfold handleApiServiceErrorRoute
      simp [h]
    · rw [hd] at h
      exact absurd h (by decide)
    · rw [hd] at h
      exact absurd h (by decide)
    · rw [hd] at h
      exact absurd h (by decide)
  · have hd : displayMessage e = e.message := by simp [displayMessage, hm]
    rcases h with ((h | h) | h) | h
    · unfold handleApiServiceErrorRoute
      simp [h]
    · rw [hd] at h
      exact route_true_of_ciHas (by simp [credentialSubstrings]) h
    · rw [hd] at h
      exact route_true_of_ciHas (by simp [credentialSubstrings]) h
    · rw [hd] at h
      exact route_true_of_ciHas (by simp [credentialSubstrings]) h

/-- C6 counterexample.  A generic (non-credential) chat failure with no model
placeholder flags the user message with the error bit but appends NO
`[Error]` suffix: its content is unchanged. -/
theorem generic_failure_user_message_cx :
    (chatCatchNonAbort ⟨[⟨"1", .user, "hi", false, false⟩], none, none, none, none⟩
        ⟨"Error", "network down"⟩ "pdf" none "1").messages =
      [⟨"1", .user, "hi", false, true⟩]
    ∧ (chatCatchNonAbort ⟨[⟨"1", .user, "hi", false, false⟩], none, none, none, none⟩
        ⟨"Error", "network down"⟩ "pdf" none "1").errorSlot =
          some "Failed to get chat response: network down"
    ∧ (chatCatchNonAbort ⟨[⟨"1", .user, "hi", false, false⟩], none, none, none, none⟩
        ⟨"Error", "network down"⟩ "pdf" none "1").messages ≠
      [⟨"1", .user, "hi [Error]", false, true⟩] := by
  refine ⟨?_, ?_, ?_⟩ <;> decide

/-- C6 (amended).  A chat failure taking the credential route sets the
credential banner to the failure message and removes both the just-appended
user message and the model placeholder, leaving the prior history; any
other non-abort failure fills the context error slot with the generic
message and keeps the messages: a still-streaming placeholder is marked
with the error flag and an `[Error]` suffix, while the user message (when
no placeholder was created) gets the error flag only, its content
unchanged. -/
theorem chat_failure_routing (s : ChatTurnState) (e : ErrObj) (contextType : String)
    (mid userMessageId : String) (base : List ChatMessage) (userMsg phMsg : ChatMessage) :
    (chatCredRoute e = true →
        (chatCatchNonAbort s e contextType (some mid) userMessageId).apiKeyError =
          some e.message
      ∧ (s.messages = base ++ [userMsg, phMsg] → userMsg.id = userMessageId →
          phMsg.id = mid → (∀ m ∈ base, m.id ≠ userMessageId ∧ m.id ≠ mid) →
          (chatCatchNonAbort s e contextType (some mid) userMessageId).messages = base))
    ∧ (chatCredRoute e = false →
        (chatCatchNonAbort s e contextType (some mid) userMessageId).errorSlot =
            some ("Failed to get chat response: " ++ displayMessage e)
      ∧ (chatCatchNonAbort s e contextType (some mid) userMessageId).apiKeyError =
            s.apiKeyError
      ∧ (∀ m ∈ s.messages, m.id = mid → m.isStreaming = true →
          ({ m with
             isStreaming := false,
             error := true,
             content := m.content ++ " [Error]" } : ChatMessage)
            ∈ (chatCatchNonAbort s e contextType (some mid) userMessageId).messages))
    ∧ (chatCredRoute e = false →
        ∀ m ∈ s.messages, m.id = userMessageId → m.isStreaming = false →
          ({ m with error := true } : ChatMessage)
            ∈ (chatCatchNonAbort s e contextType none userMessageId).messages) := by
  refine ⟨fun hroute => ⟨?_, fun hmsgs huid hpid hfresh => ?_⟩,
    fun hroute => ⟨?_, ?_, ?_⟩, fun hroute => ?_⟩
  · have hr := route_of_chatCredRoute hroute
    simp [chatCatchNonAbort, hroute, handleApiServiceError, hr]
  · rw [show (chatCatchNonAbort s e contextType (some mid) userMessageId).messages =
        s.messages.filter (keepAfterCredentialRemoval userMessageId (some mid)) from by
      simp [chatCatchNonAbort, hroute]]
    rw [hmsgs, List.filter_append]
    have hbase : base.filter (keepAfterCredentialRemoval userMessageId (some mid)) = base := by
      rw [List.filter_eq_self]
      intro m hmem
      have := hfresh m hmem
      simp [keepAfterCredentialRemoval, this.1, this.2]
    have hdrop : ([userMsg, phMsg].filter
        (keepAfterCredentialRemoval userMessageId (some mid))) = [] := by
      simp [List.filter, keepAfterCredentialRemoval, huid, hpid]
    rw [hbase, hdrop, List.append_nil]
  · simp [chatCatchNonAbort, hroute]
  · simp [chatCatchNonAbort, hroute]
  · intro m hm hid hstream
    have hmark : genericFailureMark (some mid) userMessageId m =
        { m with isStreaming := false, error := true, content := m.content ++ " [Error]" } := by
      simp [genericFailureMark, hid, hstream]
    have h2 := List.mem_map_of_mem (genericFailureMark (some mid) userMessageId) hm
    rw [hmark] at h2
    have hres : (chatCatchNonAbort s e contextType (some mid) userMessageId).messages =
        s.messages.map (genericFailureMark (some mid) userMessageId) := by
      simp [chatCatchNonAbort, hroute]
    rw [hres]
    exact h2
  · intro m hm hid hstream
    have hmark : genericFailureMark none userMessageId m = { m with error := true } := by
      simp [genericFailureMark, hid, hstream]
    have h2 := List.mem_map_of_mem (genericFailureMark none userMessageId) hm
    rw [hmark] at h2
    have hres : (chatCatchNonAbort s e contextType none userMessageId).messages =
        s.messages.map (genericFailureMark none userMessageId) := by
      simp [chatCatchNonAbort, hroute]
    rw [hres]
    exact h2

/-- C6 witness: a quota failure removes the turn artifacts and fills the
credential banner; a network failure marks the streaming placeholder. -/
theorem chat_failure_routing_witness :
    (chatCatchNonAbort
        ⟨[⟨"0", .user, "old", false, false⟩, ⟨"1", .user, "hi", false, false⟩,
          ⟨"1-model", .model, "", true, false⟩], none, none, none, none⟩
        ⟨"Error", "Quota exceeded"⟩ "text" (some "1-model") "1").messages =
      [⟨"0", .user, "old", false, false⟩]
    ∧ (chatCatchNonAbort
        ⟨[⟨"1", .user, "hi", false, false⟩, ⟨"1-model", .model, "so far", true, false⟩],
          none, none, none, none⟩
        ⟨"Error", "network down"⟩ "text" (some "1-model") "1").errorSlot =
      some "Failed to get chat response: network down" := by
  constructor
  · exact ((chat_failure_routing
      ⟨[⟨"0", .user, "old", false, false⟩, ⟨"1", .user, "hi", false, false⟩,
        ⟨"1-model", .model, "", true, false⟩], none, none, none, none⟩
      ⟨"Error", "Quota exceeded"⟩ "text" "1-model" "1"
      [⟨"0", .user, "old", false, false⟩] ⟨"1", .user, "hi", false, false⟩
      ⟨"1-model", .model, "", true, false⟩).1 (by decide)).2 rfl rfl rfl (by decide)
  · exact ((chat_failure_routing
      ⟨[⟨"1", .user, "hi", false, false⟩, ⟨"1-model", .model, "so far", true, false⟩],
        none, none, none, none⟩
      ⟨"Error", "network down"⟩ "text" "1-model" "1" [] ⟨"1", .user, "hi", false, false⟩
      ⟨"1-model", .model, "so far", true, false⟩).2.1 (by decide)).1

/-- One ChatContext slice of app state: session handle, message sequence,
error slot, token ledger entry and cancellation handle (all nullable, as in
src/App.tsx lines 52-65). -/
structure CtxState where
  session : Option Nat
  messages : List ChatMessage
  errorSlot : Option String
  tokenDetails : Option AppChatTokenDetails
  abortHandle : Option Nat
deriving DecidableEq, Repr

/-- A fully cleared context. -/
def emptyCtx : CtxState := ⟨none, [], none, none, none⟩

/-- The app-level state slice the selection/credential handlers touch. -/
structure AppState where
  selectedProvider : LLMProvider
  selectedModel : String
  apiKey : String
  storyText : String
  pdfBase64Data : Option String
  textTokenCount : Option Nat
  pdfTokenCount : Option Nat
  error : Option String
  apiKeyError : Option String
  textCtx : CtxState
  pdfCtx : CtxState
deriving DecidableEq, Repr

/-- The result of a reset: the new state plus whether each context had an
in-flight cancellation handle on which `abort()` was called. -/
structure ResetOutcome where
  state : AppState
  textTurnAborted : Bool
  pdfTurnAborted : Bool
deriving DecidableEq, Repr

/-- `resetChatStates` (src/App.tsx lines 78-95): both contexts are cleared
(session, messages, error, ledger, cancellation handle) and any existing
abort controller is triggered before being dropped. -/
def resetChatStates (s : AppState) : ResetOutcome :=
  { state := { s with textCtx := emptyCtx, pdfCtx := emptyCtx },
    textTurnAborted := s.textCtx.abortHandle.isSome,
    pdfTurnAborted := s.pdfCtx.abortHandle.isSome }

/-- `resetCountsAndError` (src/App.tsx lines 97-102): clear both token
counts and the generic banner, then `resetChatStates`. -/
def resetCountsAndError (s : AppState) : ResetOutcome :=
  let r := resetChatStates s
  { r with state :=
      { r.state with textTokenCount := none, pdfTokenCount := none, error := none } }

/-- The `useEffect` on `selectedProvider` (src/App.tsx lines 104-110), run
after the provider field has been updated: reset counts, errors and both
chat contexts, set the model to the (new) provider default (first listed),
and clear the credential banner when the credential is non-blank. -/
def providerChangeEffect (s : AppState) : ResetOutcome :=
  let r := resetCountsAndError s
  let s1 := { r.state with selectedModel := (availableModels s.selectedProvider).headD "" }
  { r with state := if isBlank s.apiKey then s1 else { s1 with apiKeyError := none } }

/-- The `useEffect` on `selectedModel` (src/App.tsx lines 112-117): reset
counts, errors and contexts, and clear the credential banner when the
credential is non-blank. -/
def modelChangeEffect (s : AppState) : ResetOutcome :=
  let r := resetCountsAndError s
  { r with state := if isBlank s.apiKey then r.state else { r.state with apiKeyError := none } }

/-- `handleApiKeyChange` (src/App.tsx lines 124-130): store the new key and
clear the credential banner when the new key is non-blank. -/
def handleApiKeyChange (s : AppState) (newApiKey : String) : AppState :=
  let s1 := { s with apiKey := newApiKey }
  if isBlank newApiKey then s1 else { s1 with apiKeyError := none }

/-- `commonApiCallChecks` (src/App.tsx lines 194-201) as a state update: a
blank key raises the credential banner, a non-blank key clears it. -/
def commonApiCallChecksState (s : AppState) : AppState :=
  if isBlank s.apiKey then
    { s with apiKeyError := some (apiKeyRequiredMsg s.selectedProvider) }
  else
    { s with apiKeyError := none }

/-- C7.  Changing the selected provider resets the model to the new
provider's first listed model and clears both contexts and the token state:
message sequences become empty; sessions, error slots and cancellation
handles are cleared (aborting any in-flight turn); the ledgers are cleared
so they read as all zeros; both token counts are cleared — regardless of
the prior state. -/
theorem provider_change_resets_state (s : AppState) :
    (providerChangeEffect s).state.selectedModel =
        (availableModels s.selectedProvider).headD ""
    ∧ (providerChangeEffect s).state.textCtx.messages = []
    ∧ (providerChangeEffect s).state.pdfCtx.messages = []
    ∧ (providerChangeEffect s).state.textCtx.session = none
    ∧ (providerChangeEffect s).state.pdfCtx.session = none
    ∧ (providerChangeEffect s).state.textCtx.errorSlot = none
    ∧ (providerChangeEffect s).state.pdfCtx.errorSlot = none
    ∧ (providerChangeEffect s).state.textCtx.abortHandle = none
    ∧ (providerChangeEffect s).state.pdfCtx.abortHandle = none
    ∧ (providerChangeEffect s).textTurnAborted = s.textCtx.abortHandle.isSome
    ∧ (providerChangeEffect s).pdfTurnAborted = s.pdfCtx.abortHandle.isSome
    ∧ (providerChangeEffect s).state.textCtx.tokenDetails = none
    ∧ (providerChangeEffect s).state.pdfCtx.tokenDetails = none
    ∧ ledgerView (providerChangeEffect s).state.textCtx.tokenDetails = initialChatTokenDetails
    ∧ ledgerView (providerChangeEffect s).state.pdfCtx.tokenDetails = initialChatTokenDetails
    ∧ (providerChangeEffect s).state.textTokenCount = none
    ∧ (providerChangeEffect s).state.pdfTokenCount = none := by
  unfold providerChangeEffect resetCountsAndError resetChatStates
  by_cases hb : isBlank s.apiKey <;>
    simp [hb, emptyCtx, ledgerView, initialChatTokenDetails]

/-- The banner-relevant events of the app: editing the credential, the
provider-change and model-change effects, a failure classified by
`handleApiServiceError`, and a run of `commonApiCallChecks`. -/
inductive AppEvent where
  | editKey (k : String)
  | providerChange (p : LLMProvider)
  | modelChange (m : String)
  | classifyFailure (e : ErrObj) (ctx : String)
  | runApiChecks
deriving DecidableEq, Repr

/-- Writes a banner pair back into the app state. -/
def applyBannersToApp (s : AppState) (b : Banners) : AppState :=
  { s with apiKeyError := b.apiKeyError, error := b.genericError }

/-- One event applied to the app state, built from the embedded handlers. -/
def stepEvent (s : AppState) : AppEvent → AppState
  | .editKey k => handleApiKeyChange s k
  | .providerChange p => (providerChangeEffect { s with selectedProvider := p }).state
  | .modelChange m => (modelChangeEffect { s with selectedModel := m }).state
  | .classifyFailure e ctx =>
      applyBannersToApp s (handleApiServiceError ⟨s.apiKeyError, s.error⟩ e ctx)
  | .runApiChecks => commonApiCallChecksState s

/-- The only events whose handlers can ever assign a non-null credential
banner. -/
def mayRaiseBanner : AppEvent → Bool
  | .classifyFailure _ _ => true
  | .runApiChecks => true
  | _ => false

theorem banner_none_preserved (s : AppState) (ev : AppEvent)
    (hnone : s.apiKeyError = none) (hev : mayRaiseBanner ev = false) :
    (stepEvent s ev).apiKeyError = none := by
  cases ev with
  | editKey k =>
    by_cases hb : isBlank k <;> simp [stepEvent, handleApiKeyChange, hb, hnone]
  | providerChange p =>
    by_cases hb : isBlank s.apiKey <;>
      simp [stepEvent, providerChangeEffect, resetCountsAndError, resetChatStates, hb, hnone]
  | modelChange m =>
    by_cases hb : isBlank s.apiKey <;>
      simp [stepEvent, modelChangeEffect, resetCountsAndError, resetChatStates, hb, hnone]
  | classifyFailure e ctx => simp [mayRaiseBanner] at hev
  | runApiChecks => simp [mayRaiseBanner] at hev

/-- C10.  Editing the credential to a non-blank value clears the credential
banner immediately; the provider-change and model-change effects clear it
whenever the current credential is non-blank; and along any event trace, a
non-blank credential edit followed only by events that cannot raise the
banner leaves the banner invisible — equivalently, a visible banner means
the credential has not been re-entered as non-blank since the banner was
last raised. -/
theorem credential_banner_clearing (s : AppState) (k : String) (s0 : AppState)
    (pre post : List AppEvent) :
    (isBlank k = false → (handleApiKeyChange s k).apiKeyError = none)
    ∧ (isBlank s.apiKey = false → (providerChangeEffect s).state.apiKeyError = none)
    ∧ (isBlank s.apiKey = false → (modelChangeEffect s).state.apiKeyError = none)
    ∧ (isBlank k = false → (∀ ev ∈ post, mayRaiseBanner ev = false) →
        ((pre ++ AppEvent.editKey k :: post).foldl stepEvent s0).apiKeyError = none) := by
  have hclear : ∀ (t : AppState), isBlank k = false →
      (handleApiKeyChange t k).apiKeyError = none := by
    intro t hb
    simp [handleApiKeyChange, hb]
  refine ⟨hclear s, fun hb => ?_, fun hb => ?_, fun hb hall => ?_⟩
  · simp [providerChangeEffect, resetCountsAndError, resetChatStates, hb]
  · simp [modelChangeEffect, resetCountsAndError, resetChatStates, hb]
  · have hinv : ∀ (events : List AppEvent) (t : AppState), t.apiKeyError = none →
        (∀ ev ∈ events, mayRaiseBanner ev = false) →
        (events.foldl stepEvent t).apiKeyError = none := by
      intro events
      induction events with
      | nil =>
        intro t h _
        simpa using h
      | cons ev rest ih =>
        intro t h hall2
        rw [List.foldl_cons]
        exact ih _ (banner_none_preserved t ev h (hall2 ev (by simp)))
          (fun x hx => hall2 x (by simp [hx]))
    rw [List.foldl_append, List.foldl_cons]
    exact hinv post _ (hclear _ hb) hall

/-- C10 witness: from a state with a visible banner, a non-blank key edit
followed by a provider change leaves the banner cleared. -/
theorem credential_banner_clearing_witness :
    ((([AppEvent.editKey "fresh-key", AppEvent.providerChange .anthropic] :
        List AppEvent).foldl stepEvent
        ⟨.google, "gemini-2.5-flash-preview-04-17", "", "", none, none, none, none,
          some "bad key", emptyCtx, emptyCtx⟩).apiKeyError = none)
    ∧ isBlank "fresh-key" = false := by
  refine ⟨?_, by decide⟩
  exact (credential_banner_clearing
    ⟨.google, "gemini-2.5-flash-preview-04-17", "", "", none, none, none, none,
      some "bad key", emptyCtx, emptyCtx⟩ "fresh-key"
    ⟨.google, "gemini-2.5-flash-preview-04-17", "", "", none, none, none, none,
      some "bad key", emptyCtx, emptyCtx⟩ []
    [AppEvent.providerChange .anthropic]).2.2.2 (by decide) (by decide)

end TokenAnalyzer
